import Mathlib

/-!
Shallow embedding of the Salt plugin corpus (availability predicates,
memoized probes, alias tables, the gem/eselect state operations, the
mdata execution module and the win_lgpo_netsh firewall utility), with
theorems checking the natural-language specification of the
module-loading runtime against this code.

Python values are translated as follows: `salt.utils.path.which`
results are `Option String` (`None` or a path string), Python
truthiness of such a value is `truthyStr`, dictionaries are
association lists with last-write-wins insertion, exceptions are
`Except PyErr`, and the heterogeneous return convention of
`__virtual__` (bool, name string, or `(False, reason)` tuple) is the
inductive `VirtualDecl`.
-/

/-- Return value convention of a plugin's `__virtual__` predicate:
`True`, bare `False`, a replacement public-name string, or a
`(False, reason)` rejection pair. -/
inductive VirtualDecl : Type
  | boolTrue : VirtualDecl
  | boolFalse : VirtualDecl
  | vname (s : String) : VirtualDecl
  | rejected (reason : String) : VirtualDecl
  deriving DecidableEq, Repr

/-- Python exceptions raised by the embedded code. -/
inductive PyErr : Type
  | valueError (msg : String) : PyErr
  | commandExecutionError (msg : String) : PyErr
  | keyError (key : String) : PyErr
  | indexError : PyErr
  deriving DecidableEq, Repr

/-- Python truthiness of a `which()` result: `None` and the empty
string are falsy, any other string is truthy. -/
def truthyStr : Option String → Bool
  | none => false
  | some s => !s.isEmpty

/-- The string `sub` occurs contiguously inside `s`. -/
def containsStr (s sub : String) : Prop := ∃ a b, s = a ++ sub ++ b

/-- Lookup in a Python-style dict modelled as an association list. -/
def alookup {α : Type} (d : List (String × α)) (k : String) : Option α :=
  match d with
  | [] => none
  | p :: rest => if k = p.1 then some p.2 else alookup rest k

/-- Insert into a Python-style dict modelled as an association list:
assigning to an existing key overwrites it in place, a new key is
appended at the end. -/
def dictInsert {α : Type} (d : List (String × α)) (k : String) (v : α) :
    List (String × α) :=
  if (alookup d k).isSome then
    d.map (fun p => if p.1 = k then (k, v) else p)
  else
    d ++ [(k, v)]

/-- Result of `cmd.run_all`: a dict with retcode, stdout and stderr. -/
structure RunAllResult : Type where
  retcode : Int
  stdout : String
  stderr : String
  deriving DecidableEq, Repr

/-- Environment of shell-command collaborators injected into a module:
`run` is `__salt__["cmd.run"]` and `runAll` is `__salt__["cmd.run_all"]`,
both keyed by the command line. -/
structure CmdEnv : Type where
  run : String → String
  runAll : String → RunAllResult

/-- Python lower-casing of a string, written over the character list
so that it is kernel-computable (`String.toLower` maps through byte
positions, which the kernel cannot reduce). -/
def pyLower (s : String) : String := String.mk (s.data.map Char.toLower)

/-- Python `str.splitlines`: split at newlines, with no trailing empty
line for a trailing newline and `[]` for the empty string. -/
def splitlines (s : String) : List String :=
  let parts := s.splitOn "\n"
  if parts.getLast? = some "" then parts.dropLast else parts

namespace Nginx

/-- From `salt/modules/nginx.py`, `__virtual__`: load only if the
memoized `__detect_os()` probe (which `which("nginx")`) is truthy,
otherwise reject with a reason. The probe result is the parameter. -/
def virtual_ (detect_os : Option String) : VirtualDecl :=
  if truthyStr detect_os then
    .boolTrue
  else
    .rejected "The nginx execution module cannot be loaded: nginx is not installed."

end Nginx

namespace Mdata

/-- From `salt/modules/mdata.py`: the declared `__virtualname__`. -/
def virtualname : String := "mdata"

/-- From `salt/modules/mdata.py`, `__virtual__`: provide mdata only
when the memoized `_check_mdata_list()` probe is truthy and
`salt.utils.platform.is_smartos_globalzone()` is false; otherwise
return the `(False, reason)` pair. Probe result and global-zone flag
are the parameters. -/
def virtual_ (check_mdata_list : Option String) (is_smartos_globalzone : Bool) :
    VirtualDecl :=
  if truthyStr check_mdata_list && !is_smartos_globalzone then
    .vname virtualname
  else
    .rejected (virtualname ++ " module can only be loaded on SmartOS zones")

/-- From `salt/modules/mdata.py`, `list_`: with a truthy
`_check_mdata_list()` probe run the binary and split its lines; with a
falsy probe return the empty dict `{}` (behaviourally the empty
collection: it is only iterated and membership-tested). -/
def list_ (check_mdata_list : Option String) (env : CmdEnv) : List String :=
  match check_mdata_list, truthyStr check_mdata_list with
  | some mdata, true => splitlines (env.run mdata)
  | _, _ => []

/-- From `salt/modules/mdata.py`, `get_`: with no keys requested the
key list comes from `list_()`; each key maps to the command's stdout
on retcode 0, and to `""` on nonzero retcode or a falsy
`_check_mdata_get()` probe. -/
def get_ (check_mdata_get check_mdata_list : Option String) (env : CmdEnv)
    (keyname : List String) : List (String × String) :=
  let keys := if keyname = [] then list_ check_mdata_list env else keyname
  keys.foldl
    (fun ret k =>
      match check_mdata_get, truthyStr check_mdata_get with
      | some mdata, true =>
          let res := env.runAll (mdata ++ " " ++ k)
          dictInsert ret k (if res.retcode = 0 then res.stdout else "")
      | _, _ => dictInsert ret k "")
    []

/-- From `salt/modules/mdata.py`, `put_`: `ret` starts as the empty
dict `{}` and is replaced by the `cmd.run_all` dict only when the
`_check_mdata_put()` probe is truthy; the final `ret["retcode"] == 0`
lookup therefore raises `KeyError("retcode")` on the empty dict when
the probe is falsy. -/
def put_ (check_mdata_put : Option String) (env : CmdEnv)
    (keyname val : String) : Except PyErr Bool :=
  let ret : Option RunAllResult :=
    match check_mdata_put, truthyStr check_mdata_put with
    | some mdata, true => some (env.runAll ("echo " ++ val ++ " | " ++ mdata ++ " " ++ keyname))
    | _, _ => none
  match ret with
  | some r => .ok (r.retcode == 0)
  | none => .error (.keyError "retcode")

/-- From `salt/modules/mdata.py`, `delete_`: valid keys come from
`list_()`; a key is deleted through the binary only when the
`_check_mdata_delete()` probe is truthy and the key is listed,
otherwise it maps to `True` without running anything. -/
def delete_ (check_mdata_delete check_mdata_list : Option String) (env : CmdEnv)
    (keyname : List String) : List (String × Bool) :=
  let valid_keynames := list_ check_mdata_list env
  keyname.foldl
    (fun ret k =>
      match check_mdata_delete, truthyStr check_mdata_delete with
      | some mdata, true =>
          if k ∈ valid_keynames then
            dictInsert ret k ((env.runAll (mdata ++ " " ++ k)).retcode == 0)
          else
            dictInsert ret k true
      | _, _ => dictInsert ret k true)
    []

end Mdata

namespace Pony

/-- From `salt/output/pony.py`: the declared `__virtualname__`. -/
def virtualname : String := "pony"

/-- From `salt/output/pony.py`, `__virtual__`: return the virtual name
when `which("ponysay")` is truthy, and bare `False` (no reason pair)
otherwise. -/
def virtual_ (which_ponysay : Option String) : VirtualDecl :=
  if truthyStr which_ponysay then .vname virtualname else .boolFalse

end Pony

namespace Netsh

/-- From `salt/utils/win_lgpo_netsh.py`: the declared `__virtualname__`. -/
def virtualname : String := "netsh"

/-- From `salt/utils/win_lgpo_netsh.py`, `__virtual__`: reject with the
`(False, reason)` pair off Windows, otherwise return the virtual name.
The `salt.utils.platform.is_windows()` host fact is the parameter. -/
def virtual_ (is_windows : Bool) : VirtualDecl :=
  if !is_windows then
    .rejected "This utility only available on Windows"
  else
    .vname virtualname

end Netsh

namespace GemState

/-- From `salt/states/gem.py`, `__virtual__`: load only if the
`gem.list` entry is present in the injected `__salt__` dispatch table,
whose key set is the parameter. -/
def virtual_ (salt_table : List String) : VirtualDecl :=
  if salt_table.contains "gem.list" then
    .boolTrue
  else
    .rejected "gem module could not be loaded"

end GemState

namespace Eselect

/-- From `salt/states/eselect.py`: the module's alias table
`__func_alias__ = {"set_": "set"}`. -/
def func_alias : List (String × String) := [("set_", "set")]

/-- From `salt/states/eselect.py`, `__virtual__`: return the name
"eselect" only if `eselect.exec_action` is present in the injected
`__salt__` dispatch table, whose key set is the parameter. -/
def virtual_ (salt_table : List String) : VirtualDecl :=
  if salt_table.contains "eselect.exec_action" then
    .vname "eselect"
  else
    .rejected "eselect module could not be loaded"

end Eselect

namespace Asam

/-- One server entry of the `asam` master configuration: the values
read with `service_config.get(...)` in `salt/runners/asam.py`.
Absent keys are `none`. -/
structure ServiceConfig : Type where
  username : Option String
  password : Option String
  protocol : Option String
  port : Option Nat
  verify_ssl : Option Bool

/-- Python truthiness of an optional string field read with
`.get(key, None)`. -/
def strFalsy (o : Option String) : Bool :=
  match o with
  | none => true
  | some s => s.isEmpty

/-- The dict built and returned by `_get_asam_configuration` for a
matching server. -/
structure AsamRet : Type where
  platform_edit_url : String
  platform_config_url : String
  platformset_edit_url : String
  platformset_config_url : String
  username : String
  password : String
  verify_ssl : Bool
  deriving DecidableEq, Repr

/-- Builds the `ret` dict of `_get_asam_configuration` from one server
entry, applying the source's defaults `protocol="https"`, `port=3451`
and `verify_ssl=True`. -/
def mkRet (asam_server : String) (sc : ServiceConfig) : AsamRet :=
  let protocol := sc.protocol.getD "https"
  let port := sc.port.getD 3451
  let base := protocol ++ "://" ++ asam_server ++ ":" ++ toString port ++ "/config/"
  { platform_edit_url := base ++ "PlatformEdit.html"
    platform_config_url := base ++ "PlatformConfig.html"
    platformset_edit_url := base ++ "PlatformSetEdit.html"
    platformset_config_url := base ++ "PlatformSetConfig.html"
    username := (sc.username).getD ""
    password := (sc.password).getD ""
    verify_ssl := (sc.verify_ssl).getD true }

/-- Outcome of `_get_asam_configuration`: either the configuration
dict or the literal `False`. -/
inductive ConfigResult : Type
  | conf (c : AsamRet) : ConfigResult
  | failed : ConfigResult
  deriving DecidableEq, Repr

/-- The `for asam_server, service_config in asam_config.items()` loop
of `_get_asam_configuration`: missing username or password returns
`False`; a server matching `driver_url` (or any server when
`driver_url` is empty) returns its `ret` dict; after the loop both the
`if driver_url:` branch and the fall-through return `False`. -/
def configLoop (driver_url : String) : List (String × ServiceConfig) → ConfigResult
  | [] => .failed
  | (asam_server, sc) :: rest =>
      if strFalsy sc.username || strFalsy sc.password then
        .failed
      else if driver_url = "" || driver_url = asam_server then
        .conf (mkRet asam_server sc)
      else
        configLoop driver_url rest

/-- From `salt/runners/asam.py`, `_get_asam_configuration`: the
`asam` key of `__opts__` is the parameter (`none` when absent); a
falsy value (absent key or empty dict) skips the loop and falls to the
final `return False`. -/
def get_asam_configuration (opts_asam : Option (List (String × ServiceConfig)))
    (driver_url : String) : ConfigResult :=
  match opts_asam with
  | none => .failed
  | some cfgs => if cfgs.isEmpty then .failed else configLoop driver_url cfgs

/-- From `salt/runners/asam.py`, `__virtual__`: bare `False` when the
requests/html.parser libraries are missing (`HAS_LIBS`), bare `False`
when `_get_asam_configuration()` is `False`, and `True` otherwise. -/
def virtual_ (has_libs : Bool)
    (opts_asam : Option (List (String × ServiceConfig))) : VirtualDecl :=
  if !has_libs then
    .boolFalse
  else if get_asam_configuration opts_asam "" = .failed then
    .boolFalse
  else
    .boolTrue

end Asam

namespace Loader

/-- A plugin unit as seen by the loader: a static name and an
availability predicate that may read the cross-plugin `__salt__`
dispatch table (the table's key set is its argument). -/
structure PluginUnit : Type where
  pname : String
  virtual_ : List String → VirtualDecl

/-- Modelled from the spec: the loader and context injector
(`salt/loader`, not under `src/`) bind the dispatch table once per
registry generation, after all units have been resolved, so each
availability predicate is evaluated against the complete, closed table
of the generation. `resolveGeneration` records, for every unit, its
name, its resolution decision, and the table the predicate observed. -/
def resolveGeneration (salt_table : List String) (units : List PluginUnit) :
    List (String × VirtualDecl × List String) :=
  units.map (fun u => (u.pname, u.virtual_ salt_table, salt_table))

end Loader

namespace ProbeCacheModel

/-- A memoization cache mapping probe keys to stored outcomes. -/
structure ProbeCache (V : Type) : Type where
  entries : List (String × V)

/-- Modelled from the spec: `salt.utils.decorators.memoize` (not under
`src/`), which backs `__detect_os` in `salt/modules/nginx.py` and the
`_check_mdata_*` probes in `salt/modules/mdata.py`. The first call for
a key runs the underlying check and stores the result; later calls
return the stored value without re-executing. The third component
counts executions of the underlying check (0 or 1). -/
def probe {V : Type} (check : String → V) (key : String) (c : ProbeCache V) :
    V × ProbeCache V × Nat :=
  match alookup c.entries key with
  | some v => (v, c, 0)
  | none => (check key, ⟨c.entries ++ [(key, check key)]⟩, 1)

/-- Runs `n` successive probes for the same key, collecting the
returned values and the total number of executions of the underlying
check. -/
def probeRun {V : Type} (check : String → V) (key : String) :
    Nat → ProbeCache V → List V × ProbeCache V × Nat
  | 0, c => ([], c, 0)
  | n + 1, c =>
      let s := probe check key c
      let r := probeRun check key n s.2.1
      (s.1 :: r.1, r.2.1, s.2.2 + r.2.2)

end ProbeCacheModel

namespace Aliases

/-- From `salt/modules/mdata.py`: the module's alias table
`__func_alias__`. -/
def mdata_func_alias : List (String × String) :=
  [("list_", "list"), ("get_", "get"), ("put_", "put"), ("delete_", "delete")]

/-- The public operations defined by `salt/modules/mdata.py` (its
underscore-prefixed `_check_*` probes are private to the loader). -/
def mdata_ops : List String := ["list_", "get_", "put_", "delete_"]

/-- The public operations defined by `salt/states/eselect.py`. -/
def eselect_ops : List String := ["set_"]

/-- Modelled from the spec: the loader's build-time alias resolution
(not under `src/`). Each operation is published under its
`__func_alias__` name when one is declared, and under its own name
otherwise; the pair keeps the internal name so the mapping is a direct
public-name-to-operation table. -/
def applyAliases (aliases : List (String × String)) (ops : List String) :
    List (String × String) :=
  ops.map (fun f => ((alookup aliases f).getD f, f))

/-- The dispatch-table rows contributed by one module: dotted public
name to internal operation name. -/
def dispatchEntries (modName : String) (aliases : List (String × String))
    (ops : List String) : List (String × String) :=
  (applyAliases aliases ops).map (fun pq => (modName ++ "." ++ pq.1, pq.2))

end Aliases

namespace GemState

/-- The record returned by every gem state operation:
`{"name": ..., "result": ..., "comment": "", "changes": {}}` with
`result` one of `None`, `True`, `False`. -/
structure StateRet : Type where
  name : String
  result : Option Bool
  comment : String
  changes : List (String × String)
  deriving DecidableEq, Repr

/-- The sibling operations and facts injected into `salt/states/gem.py`
through `__salt__`: the results of `rvm.is_installed`,
`rbenv.is_installed`, `gem.list` (a dict of gem name to version list),
`gem.sources_list`, the truthiness of the four mutating calls, and
`salt.utils.versions.compare` (not under `src/`, kept opaque). -/
structure GemEnv : Type where
  rvm_is_installed : Bool
  rbenv_is_installed : Bool
  gem_list : List (String × List String)
  gem_sources_list : List String
  gem_install_ok : Bool
  gem_uninstall_ok : Bool
  gem_sources_add_ok : Bool
  gem_sources_remove_ok : Bool
  versions_compare : String → String → String → Bool

/-- Python `re.match(r"(>=|>|<|<=)", version)`: ordered alternation,
so `">="` is tried before `">"` and `"<"` before `"<="` (which makes
the `"<="` alternative unreachable, as in the regex). -/
def matchCmpr (version : String) : Option String :=
  if version.startsWith ">=" then some ">="
  else if version.startsWith ">" then some ">"
  else if version.startsWith "<" then some "<"
  else if version.startsWith "<=" then some "<="
  else none

/-- Trace of the `__salt__` calls made before `gem.list` in
`installed`: `rvm.is_installed` runs whenever `ruby` is given, and
`rbenv.is_installed` only when `rvm.is_installed` was falsy
(short-circuit of `or` inside the `and`). -/
def installedPrelude (env : GemEnv) (ruby : Option String) : List String :=
  match ruby with
  | none => []
  | some _ =>
      if env.rvm_is_installed then ["rvm.is_installed"]
      else ["rvm.is_installed", "rbenv.is_installed"]

/-- From `salt/states/gem.py`, `installed`. Returns the state record
(or the Python exception) together with the ordered trace of
`__salt__` calls. `test` is `__opts__["test"]`. -/
def installed (env : GemEnv) (test : Bool) (name : String)
    (ruby : Option String) (version : Option String) :
    Except PyErr StateRet × List String :=
  let ret : StateRet := { name := name, result := none, comment := "", changes := [] }
  let trace := installedPrelude env ruby ++ ["gem.list"]
  let gems := env.gem_list
  let afterChecks : Except PyErr StateRet × List String :=
    if test then
      (.ok { ret with comment := "The gem " ++ name ++ " would have been installed" },
       trace)
    else if env.gem_install_ok then
      (.ok { ret with result := some true, changes := [(name, "Installed")],
                      comment := "Gem was successfully installed" },
       trace ++ ["gem.install"])
    else
      (.ok { ret with result := some false, comment := "Could not install gem." },
       trace ++ ["gem.install"])
  match alookup gems name, version with
  | some vs, some v =>
      (match matchCmpr v with
       | some cmpr =>
           (match vs.head? with
            | none => (.error .indexError, trace)
            | some v0 =>
                let installed_version := (v0.replace "default: " "").trim
                let desired_version := (v.replace cmpr "").trim
                if env.versions_compare installed_version cmpr desired_version then
                  (.ok { ret with result := some true,
                                  comment := "Installed Gem meets version requirements." },
                   trace)
                else
                  afterChecks)
       | none =>
           if vs.contains v then
             (.ok { ret with result := some true, comment := "Gem is already installed." },
              trace)
           else
             afterChecks)
  | some _, none =>
      (.ok { ret with result := some true, comment := "Gem is already installed." },
       trace)
  | none, _ => afterChecks

/-- From `salt/states/gem.py`, `removed`: early `True` when the gem is
absent from `gem.list`, `None` in test mode, otherwise
`gem.uninstall`. -/
def removed (env : GemEnv) (test : Bool) (name : String) :
    Except PyErr StateRet × List String :=
  let ret : StateRet := { name := name, result := none, comment := "", changes := [] }
  let trace := ["gem.list"]
  if (alookup env.gem_list name).isNone then
    (.ok { ret with result := some true, comment := "Gem is not installed." }, trace)
  else if test then
    (.ok { ret with comment := "The gem " ++ name ++ " would have been removed" }, trace)
  else if env.gem_uninstall_ok then
    (.ok { ret with result := some true, changes := [(name, "Removed")],
                    comment := "Gem was successfully removed." },
     trace ++ ["gem.uninstall"])
  else
    (.ok { ret with result := some false, comment := "Could not remove gem." },
     trace ++ ["gem.uninstall"])

/-- From `salt/states/gem.py`, `sources_add`: early `True` when the
source is already in `gem.sources_list`, `None` in test mode,
otherwise `gem.sources_add`. -/
def sources_add (env : GemEnv) (test : Bool) (name : String) :
    Except PyErr StateRet × List String :=
  let ret : StateRet := { name := name, result := none, comment := "", changes := [] }
  let trace := ["gem.sources_list"]
  if env.gem_sources_list.contains name then
    (.ok { ret with result := some true, comment := "Gem source is already added." }, trace)
  else if test then
    (.ok { ret with comment := "The gem source " ++ name ++ " would have been added." },
     trace)
  else if env.gem_sources_add_ok then
    (.ok { ret with result := some true, changes := [(name, "Installed")],
                    comment := "Gem source was successfully added." },
     trace ++ ["gem.sources_add"])
  else
    (.ok { ret with result := some false, comment := "Could not add gem source." },
     trace ++ ["gem.sources_add"])

/-- From `salt/states/gem.py`, `sources_remove`: early `True` when the
source is absent from `gem.sources_list`, `None` in test mode,
otherwise `gem.sources_remove`. -/
def sources_remove (env : GemEnv) (test : Bool) (name : String) :
    Except PyErr StateRet × List String :=
  let ret : StateRet := { name := name, result := none, comment := "", changes := [] }
  let trace := ["gem.sources_list"]
  if !env.gem_sources_list.contains name then
    (.ok { ret with result := some true, comment := "Gem source is already removed." },
     trace)
  else if test then
    (.ok { ret with comment := "The gem source would have been removed." }, trace)
  else if env.gem_sources_remove_ok then
    (.ok { ret with result := some true, changes := [(name, "Removed")],
                    comment := "Gem source was successfully removed." },
     trace ++ ["gem.sources_remove"])
  else
    (.ok { ret with result := some false, comment := "Could not remove gem source." },
     trace ++ ["gem.sources_remove"])

/-- The four mutating sibling operations named by the frame claim. -/
def mutatingOps : List String :=
  ["gem.install", "gem.uninstall", "gem.sources_add", "gem.sources_remove"]

end GemState

namespace Netsh

/-- Host environment of `salt/utils/win_lgpo_netsh.py`:
`socket.gethostname()` and the `cmdmod.run` of `netsh -f` on a script
file, keyed by the script's content. -/
structure NetshEnv : Type where
  hostname : String
  run : String → String

/-- The `store.lower() in ("local", "lgpo")` check shared by
`_netsh_command` and `get_settings`. -/
def storeValid (store : String) : Bool :=
  pyLower store = "local" || pyLower store = "lgpo"

/-- The `profile.lower() in ("domain", "public", "private")` check. -/
def profileValid (profile : String) : Bool :=
  ["domain", "public", "private"].contains (pyLower profile)

/-- The section check of `get_settings` (`sect` is the source's
`section` argument, renamed because `section` is a Lean keyword). -/
def sectionValid (sect : String) : Bool :=
  ["state", "firewallpolicy", "settings", "logging"].contains (pyLower sect)

/-- From `salt/utils/win_lgpo_netsh.py`, `_netsh_file`: run the script
through `netsh -f` and record it in the execution trace. -/
def netsh_file (env : NetshEnv) (content : String) : String × List String :=
  (env.run content, [content])

/-- The dedented script of `_netsh_command` for `store == "local"`. -/
def localScript (command : String) : String :=
  "advfirewall\nset store local\n" ++ command ++ "\n"

/-- The dedented script of `_netsh_command` for the lgpo store. -/
def lgpoScript (hostname command : String) : String :=
  "advfirewall\nset store gpo = " ++ hostname ++ "\n" ++ command ++ "\n"

/-- From `salt/utils/win_lgpo_netsh.py`, `_netsh_command`: an invalid
store raises `ValueError(f"Incorrect store: {store}")` before any
script is built or run; otherwise the local or lgpo script is executed
and its output split into lines. -/
def netsh_command (env : NetshEnv) (command store : String) :
    Except PyErr (List String) × List String :=
  if !storeValid store then
    (.error (.valueError ("Incorrect store: " ++ store)), [])
  else
    let script :=
      if pyLower store = "local" then localScript command
      else lgpoScript env.hostname command
    let out := netsh_file env script
    (.ok (splitlines out.1), out.2)

/-- Python whitespace as matched by the regex class `\s`. -/
def isPySpace (c : Char) : Bool :=
  c = ' ' || c = '\t' || c = '\n' || c = '\r' || c = '\x0b' || c = '\x0c'

/-- Worker for the regex split on two-or-more whitespace: `pending`
holds the current whitespace run, `acc` the current token; a maximal
run of two or more whitespace characters separates tokens, a single
whitespace character stays inside its token. -/
def splitWS2Aux : List Char → String → String → List String
  | [], pending, acc =>
      if pending.length ≥ 2 then [acc, ""] else [acc ++ pending]
  | c :: rest, pending, acc =>
      if isPySpace c then
        splitWS2Aux rest (pending.push c) acc
      else if pending.length ≥ 2 then
        acc :: splitWS2Aux rest "" (String.singleton c)
      else
        splitWS2Aux rest "" (acc ++ pending ++ String.singleton c)

/-- Python regex split on runs of two or more whitespace characters,
as in the parsing loop of `get_settings`. -/
def splitWS2 (s : String) : List String := splitWS2Aux s.data "" ""

/-- The pairing idiom `zip` over a doubled iterator used by
`get_settings`: consecutive pairs, dropping an odd trailing element. -/
def pairUp : List String → List (String × String)
  | a :: b :: rest => (a, b) :: pairUp rest
  | _ => []

/-- Python `dict.update` over an association-list dict. -/
def dictUpdateMany (d upd : List (String × String)) : List (String × String) :=
  upd.foldl (fun acc p => dictInsert acc p.1 p.2) d

/-- The parsing loop of `get_settings`: each line past the header is
split on two-or-more whitespace, paired up and merged into `ret`, and
finally spaces are removed from every value. -/
def parseSettings (lines : List String) : List (String × String) :=
  let ret := lines.foldl (fun acc line => dictUpdateMany acc (pairUp (splitWS2 line))) []
  ret.map (fun p => (p.1, p.2.replace " " ""))

/-- Python dict subscript access: `KeyError` when the key is absent. -/
def dictGet {α : Type} (d : List (String × α)) (k : String) : Except PyErr α :=
  match alookup d k with
  | some v => .ok v
  | none => .error (.keyError k)

/-- From `salt/utils/win_lgpo_netsh.py`, `get_settings`: validates
profile, section and store in that order, runs
`show {profile}profile {section}`, raises `CommandExecutionError` on
fewer than 3 result lines, parses the rest, and for the
`firewallpolicy` section unpacks the comma-split "Firewall Policy"
value into the Inbound/Outbound pair. -/
def get_settings (env : NetshEnv) (profile sect store : String) :
    Except PyErr (List (String × String)) × List String :=
  if !profileValid profile then
    (.error (.valueError ("Incorrect profile: " ++ profile)), [])
  else if !sectionValid sect then
    (.error (.valueError ("Incorrect section: " ++ sect)), [])
  else if !storeValid store then
    (.error (.valueError ("Incorrect store: " ++ store)), [])
  else
    let command := "show " ++ profile ++ "profile " ++ sect
    match netsh_command env command store with
    | (.error e, tr) => (.error e, tr)
    | (.ok results, tr) =>
        if results.length < 3 then
          (.error (.commandExecutionError ("Invalid results: " ++ toString results)), tr)
        else
          let ret := parseSettings (results.drop 3)
          if sect = "firewallpolicy" then
            match dictGet ret "Firewall Policy" with
            | .error e => (.error e, tr)
            | .ok v =>
                match v.splitOn "," with
                | [inbound, outbound] =>
                    (.ok [("Inbound", inbound), ("Outbound", outbound)], tr)
                | _ =>
                    (.error (.valueError "not enough values to unpack (expected 2)"), tr)
          else
            (.ok ret, tr)

/-- From `salt/utils/win_lgpo_netsh.py`, `get_all_settings`: an empty
dict updated with the four `get_settings` sections in order, the first
exception propagating. -/
def get_all_settings (env : NetshEnv) (profile store : String) :
    Except PyErr (List (String × String)) × List String :=
  match get_settings env profile "state" store with
  | (.error e, t1) => (.error e, t1)
  | (.ok r1, t1) =>
      match get_settings env profile "firewallpolicy" store with
      | (.error e, t2) => (.error e, t1 ++ t2)
      | (.ok r2, t2) =>
          match get_settings env profile "settings" store with
          | (.error e, t3) => (.error e, t1 ++ t2 ++ t3)
          | (.ok r3, t3) =>
              match get_settings env profile "logging" store with
              | (.error e, t4) => (.error e, t1 ++ t2 ++ t3 ++ t4)
              | (.ok r4, t4) =>
                  (.ok (dictUpdateMany (dictUpdateMany (dictUpdateMany
                          (dictUpdateMany [] r1) r2) r3) r4),
                   t1 ++ t2 ++ t3 ++ t4)

/-- From `salt/utils/win_lgpo_netsh.py`, `get_all_profiles`: the three
profiles' `get_all_settings`, evaluated in the dict-literal order
Domain, Private, Public, the first exception propagating. -/
def get_all_profiles (env : NetshEnv) (store : String) :
    Except PyErr (List (String × List (String × String))) × List String :=
  match get_all_settings env "domain" store with
  | (.error e, t1) => (.error e, t1)
  | (.ok d, t1) =>
      match get_all_settings env "private" store with
      | (.error e, t2) => (.error e, t1 ++ t2)
      | (.ok p, t2) =>
          match get_all_settings env "public" store with
          | (.error e, t3) => (.error e, t1 ++ t2 ++ t3)
          | (.ok u, t3) =>
              (.ok [("Domain Profile", d), ("Private Profile", p), ("Public Profile", u)],
               t1 ++ t2 ++ t3)

/-- The inbound-value check of `set_firewall_settings`. -/
def inboundValid (inbound : String) : Bool :=
  ["blockinbound", "blockinboundalways", "allowinbound", "notconfigured"].contains
    (pyLower inbound)

/-- The outbound-value check of `set_firewall_settings`. -/
def outboundValid (outbound : String) : Bool :=
  ["allowoutbound", "blockoutbound", "notconfigured"].contains (pyLower outbound)

/-- The shared tail of the four set operations: run the command
through `_netsh_command` and raise `CommandExecutionError` on any
output, returning `True` on an empty result list. -/
def runSet (env : NetshEnv) (command store : String) :
    Except PyErr Bool × List String :=
  match netsh_command env command store with
  | (.error e, t) => (.error e, t)
  | (.ok results, t) =>
      if !results.isEmpty then
        (.error (.commandExecutionError ("An error occurred: " ++ toString results)), t)
      else
        (.ok true, t)

/-- From `salt/utils/win_lgpo_netsh.py`, `set_firewall_settings`:
validates profile, the truthy inbound/outbound values and that at
least one of them is set; when only one is given the other is fetched
from the firewallpolicy section of `get_settings`; then runs the
firewallpolicy set command. -/
def set_firewall_settings (env : NetshEnv) (profile : String)
    (inbound outbound : Option String) (store : String) :
    Except PyErr Bool × List String :=
  if !profileValid profile then
    (.error (.valueError ("Incorrect profile: " ++ profile)), [])
  else if truthyStr inbound && !inboundValid (inbound.getD "") then
    (.error (.valueError ("Incorrect inbound value: " ++ inbound.getD "")), [])
  else if truthyStr outbound && !outboundValid (outbound.getD "") then
    (.error (.valueError ("Incorrect outbound value: " ++ outbound.getD "")), [])
  else if !truthyStr inbound && !truthyStr outbound then
    (.error (.valueError "Must set inbound or outbound"), [])
  else
    let fetched : Except PyErr (String × String) × List String :=
      if !truthyStr inbound || !truthyStr outbound then
        match get_settings env profile "firewallpolicy" store with
        | (.error e, t) => (.error e, t)
        | (.ok ret, t) =>
            let inbR := if truthyStr inbound then .ok (inbound.getD "")
                        else dictGet ret "Inbound"
            let outR := if truthyStr outbound then .ok (outbound.getD "")
                        else dictGet ret "Outbound"
            match inbR, outR with
            | .ok i, .ok o => (.ok (i, o), t)
            | .error e, _ => (.error e, t)
            | _, .error e => (.error e, t)
      else
        (.ok (inbound.getD "", outbound.getD ""), [])
    match fetched with
    | (.error e, t) => (.error e, t)
    | (.ok io, t) =>
        let command := "set " ++ profile ++ "profile firewallpolicy " ++ io.1 ++ "," ++ io.2
        let tail := runSet env command store
        (tail.1, t ++ tail.2)

/-- The setting check of `set_logging_settings`. -/
def loggingSettingValid (setting : String) : Bool :=
  ["allowedconnections", "droppedconnections", "filename", "maxfilesize"].contains
    (pyLower setting)

/-- The enable/disable/notconfigured value check. -/
def enableValueValid (value : String) : Bool :=
  ["enable", "disable", "notconfigured"].contains (pyLower value)

/-- Decimal digit value of a character. -/
def digitVal (c : Char) : Option Nat :=
  if '0' ≤ c ∧ c ≤ '9' then some (c.toNat - '0'.toNat) else none

/-- Parses a nonempty all-digit character list as a natural number. -/
def parseNatAux : List Char → Nat → Option Nat
  | [], acc => some acc
  | c :: rest, acc =>
      match digitVal c with
      | some d => parseNatAux rest (acc * 10 + d)
      | none => none

/-- Parses a character list as a natural number (none when empty or on
a non-digit). -/
def parseNat (cs : List Char) : Option Nat :=
  if cs = [] then none else parseNatAux cs 0

/-- Python integer parsing as applied to the maxfilesize value:
surrounding whitespace is tolerated, an optional sign, then decimal
digits (written over the character list so it is kernel-computable). -/
def pyInt (s : String) : Option Int :=
  let cs := ((s.data.dropWhile isPySpace).reverse.dropWhile isPySpace).reverse
  match cs with
  | '-' :: rest => (parseNat rest).map (fun n => -(n : Int))
  | '+' :: rest => (parseNat rest).map (fun n => (n : Int))
  | _ => (parseNat cs).map (fun n => (n : Int))

/-- The maxfilesize block of `set_logging_settings`: for that setting
and a value other than "notconfigured", the value must parse as an
integer in `1..32767`, and otherwise raises
`ValueError(f"Incorrect value: {value}")`. -/
def maxfilesizeCheck (setting value : String) : Option PyErr :=
  if pyLower setting = "maxfilesize" ∧ pyLower value ≠ "notconfigured" then
    match pyInt value with
    | none => some (.valueError ("Incorrect value: " ++ value))
    | some n =>
        if 1 ≤ n ∧ n ≤ 32767 then none
        else some (.valueError ("Incorrect value: " ++ value))
  else none

/-- From `salt/utils/win_lgpo_netsh.py`, `set_logging_settings`:
validates profile, setting, and the setting-dependent value (the
maxfilesize value must parse as an integer in `1..32767`), then runs
the logging set command. -/
def set_logging_settings (env : NetshEnv) (profile setting value store : String) :
    Except PyErr Bool × List String :=
  if !profileValid profile then
    (.error (.valueError ("Incorrect profile: " ++ profile)), [])
  else if !loggingSettingValid setting then
    (.error (.valueError ("Incorrect setting: " ++ setting)), [])
  else if (pyLower setting = "allowedconnections" ∨ pyLower setting = "droppedconnections")
          ∧ enableValueValid value = false then
    (.error (.valueError ("Incorrect value: " ++ value)), [])
  else
    match maxfilesizeCheck setting value with
    | some e => (.error e, [])
    | none =>
        runSet env ("set " ++ profile ++ "profile logging " ++ setting ++ " " ++ value) store

/-- The setting check of `set_settings`. -/
def settingsSettingValid (setting : String) : Bool :=
  ["localfirewallrules", "localconsecrules", "inboundusernotification",
   "remotemanagement", "unicastresponsetomulticast"].contains (pyLower setting)

/-- From `salt/utils/win_lgpo_netsh.py`, `set_settings`: validates
profile, setting and value, then runs the settings set command. -/
def set_settings (env : NetshEnv) (profile setting value store : String) :
    Except PyErr Bool × List String :=
  if !profileValid profile then
    (.error (.valueError ("Incorrect profile: " ++ profile)), [])
  else if !settingsSettingValid setting then
    (.error (.valueError ("Incorrect setting: " ++ setting)), [])
  else if !enableValueValid value then
    (.error (.valueError ("Incorrect value: " ++ value)), [])
  else
    runSet env ("set " ++ profile ++ "profile settings " ++ setting ++ " " ++ value) store

/-- The state check of `set_state`. -/
def stateValid (state : String) : Bool :=
  ["on", "off", "notconfigured"].contains (pyLower state)

/-- From `salt/utils/win_lgpo_netsh.py`, `set_state`: validates
profile and state, then runs the state set command. -/
def set_state (env : NetshEnv) (profile state store : String) :
    Except PyErr Bool × List String :=
  if !profileValid profile then
    (.error (.valueError ("Incorrect profile: " ++ profile)), [])
  else if !stateValid state then
    (.error (.valueError ("Incorrect state: " ++ state)), [])
  else
    runSet env ("set " ++ profile ++ "profile state " ++ state) store

end Netsh

/-- A trace of sibling calls avoids all four mutating gem operations. -/
def GemState.noMutatingCalls (trace : List String) : Bool :=
  GemState.mutatingOps.all (fun m => !trace.contains m)

/-- A sample injected environment for the gem state operations: one
installed gem `bar` and one configured source. -/
def GemState.sampleEnv : GemState.GemEnv :=
  { rvm_is_installed := false
    rbenv_is_installed := false
    gem_list := [("bar", ["1.0"])]
    gem_sources_list := ["https://rubygems.org"]
    gem_install_ok := true
    gem_uninstall_ok := true
    gem_sources_add_ok := true
    gem_sources_remove_ok := true
    versions_compare := fun _ _ _ => false }

/-- A sample netsh host environment: fixed hostname, every netsh
script returning empty output. -/
def Netsh.sampleEnv : Netsh.NetshEnv :=
  { hostname := "host", run := fun _ => "" }

/-! Helper lemmas. -/

theorem append_ne_append_of_mismatch (p q x y : String) (i : Nat)
    (hip : i < p.data.length) (hiq : i < q.data.length)
    (hne : p.data[i]? ≠ q.data[i]?) : p ++ x ≠ q ++ y := by
  intro h
  have hd : p.data ++ x.data = q.data ++ y.data := by
    rw [← String.data_append, ← String.data_append, h]
  have h1 : (p.data ++ x.data)[i]? = p.data[i]? := by
    rw [List.getElem?_append, if_pos hip]
  have h2 : (q.data ++ y.data)[i]? = q.data[i]? := by
    rw [List.getElem?_append, if_pos hiq]
  rw [hd] at h1
  exact hne (h1.symm.trans h2)

theorem ne_append_of_mismatch (p q y : String) (i : Nat)
    (hip : i < p.data.length) (hiq : i < q.data.length)
    (hne : p.data[i]? ≠ q.data[i]?) : p ≠ q ++ y := by
  intro h
  exact append_ne_append_of_mismatch p q "" y i hip hiq hne
    (by rw [String.append_empty, h])

theorem alookup_append {α : Type} (l1 l2 : List (String × α)) (k : String) :
    alookup (l1 ++ l2) k = (alookup l1 k).or (alookup l2 k) := by
  induction l1 with
  | nil => simp [alookup]
  | cons p l ih =>
      simp only [List.cons_append, alookup]
      by_cases h : k = p.1 <;> simp [h, ih]

theorem alookup_map_overwrite_ne {α : Type} (d : List (String × α)) (a k : String)
    (v : α) (hka : k ≠ a) :
    alookup (d.map (fun p => if p.1 = a then (a, v) else p)) k = alookup d k := by
  induction d with
  | nil => rfl
  | cons p d ih =>
      obtain ⟨pk, pv⟩ := p
      simp only [List.map_cons]
      by_cases hpa : pk = a
      · subst hpa
        simp [alookup, hka, ih]
      · simp [alookup, hpa, ih]

theorem alookup_map_overwrite_eq {α : Type} (d : List (String × α)) (a : String)
    (v : α) (h : (alookup d a).isSome) :
    alookup (d.map (fun p => if p.1 = a then (a, v) else p)) a = some v := by
  induction d with
  | nil => simp [alookup] at h
  | cons p d ih =>
      obtain ⟨pk, pv⟩ := p
      simp only [List.map_cons]
      by_cases hpa : pk = a
      · subst hpa
        simp [alookup]
      · have hne : ¬(a = pk) := fun hh => hpa hh.symm
        simp only [alookup, hpa, hne, if_false] at h ⊢
        exact ih h

theorem alookup_dictInsert {α : Type} (d : List (String × α)) (a : String) (v : α)
    (k : String) :
    alookup (dictInsert d a v) k = if k = a then some v else alookup d k := by
  by_cases hmem : (alookup d a).isSome
  · rw [dictInsert, if_pos hmem]
    by_cases hka : k = a
    · subst hka; rw [if_pos rfl]; exact alookup_map_overwrite_eq d k v hmem
    · rw [if_neg hka]; exact alookup_map_overwrite_ne d a k v hka
  · rw [dictInsert, if_neg hmem, alookup_append]
    have hd : alookup d a = none := Option.not_isSome_iff_eq_none.mp hmem
    by_cases hka : k = a
    · subst hka; simp [hd, alookup]
    · simp only [alookup, if_neg hka, hka, if_false]
      cases alookup d k <;> rfl

theorem alookup_foldl_dictInsert_const {α : Type} (v : α) (ks : List String)
    (init : List (String × α)) (k : String) :
    alookup (ks.foldl (fun ret key => dictInsert ret key v) init) k =
      if k ∈ ks then some v else alookup init k := by
  induction ks generalizing init with
  | nil => simp
  | cons a ks ih =>
      simp only [List.foldl_cons, List.mem_cons]
      rw [ih]
      by_cases hk : k ∈ ks
      · simp [hk]
      · simp only [hk, or_false]
        rw [alookup_dictInsert]
        by_cases hka : k = a <;> simp [hka]

/-!  Claim theorems. -/

/-- C3: for the nginx module's availability predicate, a truthy
memoized `__detect_os()` probe yields `True` (accept under the default
public name), and a falsy probe yields a `(False, reason)` pair whose
reason contains "nginx". -/
theorem nginx_virtual_spec (d : Option String) :
    (truthyStr d = true → Nginx.virtual_ d = .boolTrue) ∧
    (truthyStr d = false →
      ∃ r, Nginx.virtual_ d = .rejected r ∧ containsStr r "nginx") := by
  constructor
  · intro h; simp [Nginx.virtual_, h]
  · intro h
    refine ⟨"The nginx execution module cannot be loaded: nginx is not installed.",
      by simp [Nginx.virtual_, h], "The ",
      " execution module cannot be loaded: nginx is not installed.", by decide⟩

/-- Witness for C3 at the concrete probe results
`some "/usr/sbin/nginx"` and `none`. -/
theorem nginx_virtual_spec_witness :
    Nginx.virtual_ (some "/usr/sbin/nginx") = .boolTrue ∧
    ∃ r, Nginx.virtual_ none = .rejected r ∧ containsStr r "nginx" :=
  ⟨(nginx_virtual_spec (some "/usr/sbin/nginx")).1 (by decide),
   (nginx_virtual_spec none).2 (by decide)⟩

/-- C5: the netsh utility's availability predicate returns the
rejection pair `(False, "This utility only available on Windows")` on
a non-Windows host (completing normally, with no uncaught failure, as
the embedding is a total function), and the virtual name "netsh" on
Windows. -/
theorem netsh_virtual_spec (w : Bool) :
    (w = false →
      Netsh.virtual_ w = .rejected "This utility only available on Windows") ∧
    (w = true → Netsh.virtual_ w = .vname "netsh") := by
  cases w <;> simp [Netsh.virtual_, Netsh.virtualname]

/-- Witness for C5 at both concrete host facts. -/
theorem netsh_virtual_spec_witness :
    Netsh.virtual_ false = .rejected "This utility only available on Windows" ∧
    Netsh.virtual_ true = .vname "netsh" :=
  ⟨(netsh_virtual_spec false).1 rfl, (netsh_virtual_spec true).2 rfl⟩

/-- C7: the mdata module's availability predicate returns the declared
`__virtualname__` string "mdata" exactly when the mdata-list probe is
truthy and the host is not a SmartOS global zone, and otherwise a
`(False, reason)` pair whose reason mentions SmartOS zones. -/
theorem mdata_virtual_spec (p : Option String) (gz : Bool) :
    (truthyStr p = true ∧ gz = false → Mdata.virtual_ p gz = .vname "mdata") ∧
    (¬(truthyStr p = true ∧ gz = false) →
      ∃ r, Mdata.virtual_ p gz = .rejected r ∧ containsStr r "SmartOS zones") := by
  constructor
  · rintro ⟨h1, h2⟩
    subst h2
    simp [Mdata.virtual_, h1, Mdata.virtualname]
  · intro h
    have hcond : (truthyStr p && !gz) = false := by
      cases htp : truthyStr p <;> cases hgz : gz <;> simp_all
    refine ⟨"mdata module can only be loaded on SmartOS zones", ?_,
      "mdata module can only be loaded on ", "", by decide⟩
    simp [Mdata.virtual_, hcond, Mdata.virtualname]

/-- Witness for C7 at an accepting and a rejecting concrete input. -/
theorem mdata_virtual_spec_witness :
    Mdata.virtual_ (some "/usr/sbin/mdata-list") false = .vname "mdata" ∧
    ∃ r, Mdata.virtual_ none false = .rejected r ∧ containsStr r "SmartOS zones" :=
  ⟨(mdata_virtual_spec (some "/usr/sbin/mdata-list") false).1 ⟨by decide, rfl⟩,
   (mdata_virtual_spec none false).2 (by simp [truthyStr])⟩

/-- C8: silent rejection with a bare `False`: the pony output plugin's
predicate returns the plain value `False` (not a pair) whenever the
ponysay probe is falsy, and the asam runner's predicate returns plain
`False` when its client libraries are unavailable and when no asam
configuration is present in `__opts__`. -/
theorem silent_rejection_spec (p : Option String) (hl : Bool)
    (opts_asam : Option (List (String × Asam.ServiceConfig))) :
    (truthyStr p = false → Pony.virtual_ p = .boolFalse) ∧
    (hl = false → Asam.virtual_ hl opts_asam = .boolFalse) ∧
    (opts_asam = none ∨ opts_asam = some [] →
      Asam.virtual_ hl opts_asam = .boolFalse) := by
  refine ⟨fun h => by simp [Pony.virtual_, h], fun h => by simp [Asam.virtual_, h], ?_⟩
  rintro (rfl | rfl) <;>
    cases hl <;>
      simp [Asam.virtual_, Asam.get_asam_configuration]

/-- Witness for C8 at concrete inputs: absent ponysay probe, missing
client libraries, and an `__opts__` without an asam section. -/
theorem silent_rejection_spec_witness :
    Pony.virtual_ none = .boolFalse ∧
    Asam.virtual_ false none = .boolFalse ∧
    Asam.virtual_ true none = .boolFalse :=
  ⟨(silent_rejection_spec none false none).1 rfl,
   (silent_rejection_spec none false none).2.1 rfl,
   (silent_rejection_spec none true none).2.2 (Or.inl rfl)⟩

/-- C4 (code bug): with its binary probe absent, `list_` returns the
empty collection, `get_` maps each requested key to `""` and `delete_`
maps each key to `True` without invoking the binary, but `put_` does
not return `False` as the claim states: `ret` stays the empty dict and
the final retcode lookup raises `KeyError("retcode")`. -/
theorem mdata_absent_probe_behaviour (env : CmdEnv) (ks : List String)
    (keyname val k : String) :
    Mdata.list_ none env = [] ∧
    alookup (Mdata.get_ none none env ks) k =
      (if k ∈ ks then some "" else none) ∧
    Mdata.put_ none env keyname val = .error (.keyError "retcode") ∧
    alookup (Mdata.delete_ none none env ks) k =
      (if k ∈ ks then some true else none) := by
  refine ⟨rfl, ?_, rfl, ?_⟩
  · show alookup
      ((if ks = [] then Mdata.list_ none env else ks).foldl
        (fun ret key => dictInsert ret key "") []) k = _
    rcases hks : ks with _ | _
    · simp [Mdata.list_, alookup]
    · rw [if_neg (by simp)]
      rw [alookup_foldl_dictInsert_const]
      rfl
  · show alookup (ks.foldl (fun ret key => dictInsert ret key true) []) k = _
    rw [alookup_foldl_dictInsert_const]
    rfl

/-- C6: alias resolution is a build-time direct mapping: the public
names list/get/put/delete of mdata map to the operations `list_`,
`get_`, `put_`, `delete_`, and the eselect public name set maps to
`set_`. -/
theorem alias_direct_mapping :
    alookup (Aliases.dispatchEntries "mdata" Aliases.mdata_func_alias
      Aliases.mdata_ops) "mdata.list" = some "list_" ∧
    alookup (Aliases.dispatchEntries "mdata" Aliases.mdata_func_alias
      Aliases.mdata_ops) "mdata.get" = some "get_" ∧
    alookup (Aliases.dispatchEntries "mdata" Aliases.mdata_func_alias
      Aliases.mdata_ops) "mdata.put" = some "put_" ∧
    alookup (Aliases.dispatchEntries "mdata" Aliases.mdata_func_alias
      Aliases.mdata_ops) "mdata.delete" = some "delete_" ∧
    alookup (Aliases.dispatchEntries "eselect" Eselect.func_alias
      Aliases.eselect_ops) "eselect.set" = some "set_" := by
  decide

theorem probeRun_steady {V : Type} (check : String → V) (key : String)
    (c : ProbeCacheModel.ProbeCache V) (v : V)
    (h : alookup c.entries key = some v) :
    ∀ n, ProbeCacheModel.probeRun check key n c = (List.replicate n v, c, 0) := by
  intro n
  induction n with
  | zero => rfl
  | succ m ih =>
      simp [ProbeCacheModel.probeRun, ProbeCacheModel.probe, h, ih, List.replicate_succ]

/-- C2: the memoized probe model executes the underlying check exactly
once across any positive number of lookups of the same key in one
generation, and every lookup returns the value of the first one. -/
theorem probe_memoized {V : Type} (check : String → V) (key : String) (n : Nat)
    (c : ProbeCacheModel.ProbeCache V) (hc : alookup c.entries key = none)
    (hn : 1 ≤ n) :
    (ProbeCacheModel.probeRun check key n c).2.2 = 1 ∧
    ∀ v ∈ (ProbeCacheModel.probeRun check key n c).1, v = check key := by
  obtain ⟨m, rfl⟩ : ∃ m, n = m + 1 := ⟨n - 1, (Nat.succ_pred_eq_of_pos hn).symm⟩
  have hlook : alookup (c.entries ++ [(key, check key)]) key = some (check key) := by
    rw [alookup_append, hc]
    simp [alookup]
  have hrun : ProbeCacheModel.probeRun check key (m + 1) c =
      (check key :: List.replicate m (check key),
       ⟨c.entries ++ [(key, check key)]⟩, 1) := by
    simp [ProbeCacheModel.probeRun, ProbeCacheModel.probe, hc,
      probeRun_steady check key ⟨c.entries ++ [(key, check key)]⟩ (check key) hlook m]
  rw [hrun]
  refine ⟨rfl, ?_⟩
  intro v hv
  rcases List.mem_cons.mp hv with rfl | hv
  · rfl
  · exact List.eq_of_mem_replicate hv

/-- Witness for C2: three lookups of a fresh key execute the
underlying check once. -/
theorem probe_memoized_witness :
    (ProbeCacheModel.probeRun (fun _ => some "/usr/sbin/nginx") "detect_os" 3
      ⟨[]⟩).2.2 = 1 :=
  (probe_memoized (fun _ => some "/usr/sbin/nginx") "detect_os" 3 ⟨[]⟩ rfl
    (by decide)).1

/-- C1: in a registry generation, every availability predicate that
reads the cross-plugin dispatch table observes the complete table of
the generation (the one recorded with each resolution), and in
particular the gem and eselect membership tests are decided against
that complete table. -/
theorem resolve_observes_complete_table (salt_table : List String)
    (units : List Loader.PluginUnit) :
    (∀ e ∈ Loader.resolveGeneration salt_table units, e.2.2 = salt_table) ∧
    (GemState.virtual_ salt_table = .boolTrue ↔
      salt_table.contains "gem.list" = true) ∧
    (Eselect.virtual_ salt_table = .vname "eselect" ↔
      salt_table.contains "eselect.exec_action" = true) := by
  refine ⟨?_, ?_, ?_⟩
  · intro e he
    simp only [Loader.resolveGeneration, List.mem_map] at he
    obtain ⟨u, _, rfl⟩ := he
    rfl
  · unfold GemState.virtual_
    by_cases h : salt_table.contains "gem.list" <;> simp [h]
  · unfold Eselect.virtual_
    by_cases h : salt_table.contains "eselect.exec_action" <;> simp [h]

/-- Witness for C1: a one-unit generation over the complete table
containing `gem.list`. -/
theorem resolve_observes_complete_table_witness :
    ("gem", VirtualDecl.boolTrue, ["gem.list"]).2.2 = ["gem.list"] ∧
    GemState.virtual_ ["gem.list"] = .boolTrue :=
  ⟨(resolve_observes_complete_table ["gem.list"] [⟨"gem", GemState.virtual_⟩]).1
      ("gem", VirtualDecl.boolTrue, ["gem.list"])
      (by simp [Loader.resolveGeneration, GemState.virtual_]),
   (resolve_observes_complete_table ["gem.list"] []).2.1.mpr (by decide)⟩

/-- C9: with `__opts__["test"]` truthy and the target not already in
the desired state, each gem state operation returns a record with
result `None` and empty changes, and its call trace contains none of
the mutating sibling operations. -/
theorem gem_test_mode_frame (env : GemState.GemEnv)
    (nameI nameR nameA nameS : String) (ruby version : Option String)
    (hI : alookup env.gem_list nameI = none)
    (hR : (alookup env.gem_list nameR).isSome = true)
    (hA : env.gem_sources_list.contains nameA = false)
    (hS : env.gem_sources_list.contains nameS = true) :
    (∃ s, (GemState.installed env true nameI ruby version).1 = .ok s ∧
      s.result = none ∧ s.changes = [] ∧
      GemState.noMutatingCalls
        (GemState.installed env true nameI ruby version).2 = true) ∧
    (∃ s, (GemState.removed env true nameR).1 = .ok s ∧
      s.result = none ∧ s.changes = [] ∧
      GemState.noMutatingCalls (GemState.removed env true nameR).2 = true) ∧
    (∃ s, (GemState.sources_add env true nameA).1 = .ok s ∧
      s.result = none ∧ s.changes = [] ∧
      GemState.noMutatingCalls (GemState.sources_add env true nameA).2 = true) ∧
    (∃ s, (GemState.sources_remove env true nameS).1 = .ok s ∧
      s.result = none ∧ s.changes = [] ∧
      GemState.noMutatingCalls (GemState.sources_remove env true nameS).2 = true) := by
  have htrace : ∀ rb, GemState.noMutatingCalls
      (GemState.installedPrelude env rb ++ ["gem.list"]) = true := by
    intro rb
    rcases rb with _ | r
    · exact (by decide : GemState.noMutatingCalls ([] ++ ["gem.list"]) = true)
    · simp only [GemState.installedPrelude]
      cases env.rvm_is_installed <;> decide
  refine ⟨?_, ?_, ?_, ?_⟩
  · have keyI : GemState.installed env true nameI ruby version =
        (.ok { name := nameI, result := none,
               comment := "The gem " ++ nameI ++ " would have been installed",
               changes := [] },
         GemState.installedPrelude env ruby ++ ["gem.list"]) := by
      simp [GemState.installed, hI]
    exact ⟨_, by rw [keyI], rfl, rfl, by rw [keyI]; exact htrace ruby⟩
  · obtain ⟨w, hw⟩ := Option.isSome_iff_exists.mp hR
    have keyR : GemState.removed env true nameR =
        (.ok { name := nameR, result := none,
               comment := "The gem " ++ nameR ++ " would have been removed",
               changes := [] },
         ["gem.list"]) := by
      simp [GemState.removed, hw]
    exact ⟨_, by rw [keyR], rfl, rfl,
      by rw [keyR]; exact (by decide : GemState.noMutatingCalls ["gem.list"] = true)⟩
  · have hA2 : nameA ∉ env.gem_sources_list := by simpa using hA
    have keyA : GemState.sources_add env true nameA =
        (.ok { name := nameA, result := none,
               comment := "The gem source " ++ nameA ++ " would have been added.",
               changes := [] },
         ["gem.sources_list"]) := by
      simp [GemState.sources_add, hA2]
    exact ⟨_, by rw [keyA], rfl, rfl,
      by rw [keyA]; exact (by decide : GemState.noMutatingCalls ["gem.sources_list"] = true)⟩
  · have hS2 : nameS ∈ env.gem_sources_list := by simpa using hS
    have keyS : GemState.sources_remove env true nameS =
        (.ok { name := nameS, result := none,
               comment := "The gem source would have been removed.",
               changes := [] },
         ["gem.sources_list"]) := by
      simp [GemState.sources_remove, hS2]
    exact ⟨_, by rw [keyS], rfl, rfl,
      by rw [keyS]; exact (by decide : GemState.noMutatingCalls ["gem.sources_list"] = true)⟩

/-- Witness for C9 on the sample environment: test mode touches no
mutating sibling operation in any of the four gem states. -/
theorem gem_test_mode_frame_witness :
    GemState.noMutatingCalls
      (GemState.installed GemState.sampleEnv true "foo" none none).2 = true ∧
    GemState.noMutatingCalls
      (GemState.removed GemState.sampleEnv true "bar").2 = true ∧
    GemState.noMutatingCalls
      (GemState.sources_add GemState.sampleEnv true "s1").2 = true ∧
    GemState.noMutatingCalls
      (GemState.sources_remove GemState.sampleEnv true "https://rubygems.org").2 =
      true := by
  obtain ⟨⟨s1, _, _, _, h1⟩, ⟨s2, _, _, _, h2⟩, ⟨s3, _, _, _, h3⟩, ⟨s4, _, _, _, h4⟩⟩ :=
    gem_test_mode_frame GemState.sampleEnv "foo" "bar" "s1" "https://rubygems.org"
      none none (by decide) (by decide) (by decide) (by decide)
  exact ⟨h1, h2, h3, h4⟩

theorem incorrect_profile_ne_store (a b : String) :
    "Incorrect profile: " ++ a ≠ "Incorrect store: " ++ b :=
  append_ne_append_of_mismatch _ _ _ _ 10 (by decide) (by decide) (by decide)

theorem incorrect_section_ne_store (a b : String) :
    "Incorrect section: " ++ a ≠ "Incorrect store: " ++ b :=
  append_ne_append_of_mismatch _ _ _ _ 11 (by decide) (by decide) (by decide)

theorem incorrect_setting_ne_store (a b : String) :
    "Incorrect setting: " ++ a ≠ "Incorrect store: " ++ b :=
  append_ne_append_of_mismatch _ _ _ _ 11 (by decide) (by decide) (by decide)

theorem incorrect_value_ne_store (a b : String) :
    "Incorrect value: " ++ a ≠ "Incorrect store: " ++ b :=
  append_ne_append_of_mismatch _ _ _ _ 10 (by decide) (by decide) (by decide)

theorem incorrect_state_ne_store (a b : String) :
    "Incorrect state: " ++ a ≠ "Incorrect store: " ++ b :=
  append_ne_append_of_mismatch _ _ _ _ 12 (by decide) (by decide) (by decide)

theorem incorrect_inbound_ne_store (a b : String) :
    "Incorrect inbound value: " ++ a ≠ "Incorrect store: " ++ b :=
  append_ne_append_of_mismatch _ _ _ _ 10 (by decide) (by decide) (by decide)

theorem incorrect_outbound_ne_store (a b : String) :
    "Incorrect outbound value: " ++ a ≠ "Incorrect store: " ++ b :=
  append_ne_append_of_mismatch _ _ _ _ 10 (by decide) (by decide) (by decide)

theorem must_set_ne_store (b : String) :
    "Must set inbound or outbound" ≠ "Incorrect store: " ++ b :=
  ne_append_of_mismatch _ _ _ 0 (by decide) (by decide) (by decide)

theorem unpack_ne_store (b : String) :
    "not enough values to unpack (expected 2)" ≠ "Incorrect store: " ++ b :=
  ne_append_of_mismatch _ _ _ 0 (by decide) (by decide) (by decide)

theorem netsh_command_invalid_store (env : Netsh.NetshEnv) (cmd store : String)
    (h : Netsh.storeValid store = false) :
    Netsh.netsh_command env cmd store =
      (.error (.valueError ("Incorrect store: " ++ store)), []) := by
  simp [Netsh.netsh_command, h]

theorem netsh_command_valid_store (env : Netsh.NetshEnv) (cmd store : String)
    (h : Netsh.storeValid store = true) :
    ∃ lines tr, Netsh.netsh_command env cmd store = (.ok lines, tr) := by
  simp only [Netsh.netsh_command, h, Bool.not_true, Bool.false_eq_true, if_false]
  exact ⟨_, _, rfl⟩

theorem runSet_invalid_store (env : Netsh.NetshEnv) (cmd store : String)
    (h : Netsh.storeValid store = false) :
    Netsh.runSet env cmd store =
      (.error (.valueError ("Incorrect store: " ++ store)), []) := by
  rw [Netsh.runSet, netsh_command_invalid_store env cmd store h]

theorem runSet_valid_store_ne (env : Netsh.NetshEnv) (cmd store : String)
    (h : Netsh.storeValid store = true) :
    (Netsh.runSet env cmd store).1 ≠
      .error (.valueError ("Incorrect store: " ++ store)) := by
  obtain ⟨lines, tr, heq⟩ := netsh_command_valid_store env cmd store h
  rw [Netsh.runSet, heq]
  by_cases hl : lines.isEmpty <;> simp [hl]

theorem get_settings_invalid_store (env : Netsh.NetshEnv) (p s store : String)
    (h : Netsh.storeValid store = false) :
    ∃ m, Netsh.get_settings env p s store = (.error (.valueError m), []) := by
  cases hp : Netsh.profileValid p with
  | false => exact ⟨"Incorrect profile: " ++ p, by simp [Netsh.get_settings, hp]⟩
  | true =>
      cases hs : Netsh.sectionValid s with
      | false => exact ⟨"Incorrect section: " ++ s, by simp [Netsh.get_settings, hp, hs]⟩
      | true =>
          exact ⟨"Incorrect store: " ++ store,
            by simp [Netsh.get_settings, hp, hs, h, netsh_command_invalid_store]⟩

theorem get_settings_incorrect_store (env : Netsh.NetshEnv) (p s store : String)
    (h : Netsh.storeValid store = false)
    (hp : Netsh.profileValid p = true) (hs : Netsh.sectionValid s = true) :
    Netsh.get_settings env p s store =
      (.error (.valueError ("Incorrect store: " ++ store)), []) := by
  simp [Netsh.get_settings, hp, hs, h, netsh_command_invalid_store]

theorem get_settings_valid_store_ne (env : Netsh.NetshEnv) (p s store : String)
    (h : Netsh.storeValid store = true) :
    (Netsh.get_settings env p s store).1 ≠
      .error (.valueError ("Incorrect store: " ++ store)) := by
  cases hp : Netsh.profileValid p with
  | false =>
      simp only [Netsh.get_settings, hp, Bool.not_false, if_true]
      intro hc
      simp only [Except.error.injEq, PyErr.valueError.injEq] at hc
      exact incorrect_profile_ne_store p store hc
  | true =>
      cases hs : Netsh.sectionValid s with
      | false =>
          simp only [Netsh.get_settings, hp, hs, Bool.not_true, Bool.not_false,
            Bool.false_eq_true, if_false, if_true]
          intro hc
          simp only [Except.error.injEq, PyErr.valueError.injEq] at hc
          exact incorrect_section_ne_store s store hc
      | true =>
          obtain ⟨lines, tr, heq⟩ :=
            netsh_command_valid_store env ("show " ++ p ++ "profile " ++ s) store h
          simp only [Netsh.get_settings, hp, hs, h, Bool.not_true,
            Bool.false_eq_true, if_false]
          rw [heq]
          by_cases hlen : lines.length < 3
          · simp [hlen]
          · by_cases hfw : s = "firewallpolicy"
            · cases hd : alookup (Netsh.parseSettings (lines.drop 3)) "Firewall Policy" with
              | none => simp [hlen, hfw, Netsh.dictGet, hd]
              | some v =>
                  rcases hsp : v.splitOn "," with _ | ⟨i, _ | ⟨o, _ | ⟨x, xs⟩⟩⟩ <;>
                    simp [hlen, hfw, Netsh.dictGet, hd, hsp] <;>
                    exact fun hc => unpack_ne_store store hc
            · simp [hlen, hfw]

theorem get_all_settings_invalid_store (env : Netsh.NetshEnv) (p store : String)
    (h : Netsh.storeValid store = false) :
    ∃ m, Netsh.get_all_settings env p store = (.error (.valueError m), []) := by
  obtain ⟨m, hm⟩ := get_settings_invalid_store env p "state" store h
  exact ⟨m, by simp [Netsh.get_all_settings, hm]⟩

theorem get_all_settings_incorrect_store (env : Netsh.NetshEnv) (p store : String)
    (h : Netsh.storeValid store = false) (hp : Netsh.profileValid p = true) :
    Netsh.get_all_settings env p store =
      (.error (.valueError ("Incorrect store: " ++ store)), []) := by
  have h1 := get_settings_incorrect_store env p "state" store h hp (by decide)
  simp [Netsh.get_all_settings, h1]

theorem get_all_settings_valid_store_ne (env : Netsh.NetshEnv) (p store : String)
    (h : Netsh.storeValid store = true) :
    (Netsh.get_all_settings env p store).1 ≠
      .error (.valueError ("Incorrect store: " ++ store)) := by
  have n1 := get_settings_valid_store_ne env p "state" store h
  have n2 := get_settings_valid_store_ne env p "firewallpolicy" store h
  have n3 := get_settings_valid_store_ne env p "settings" store h
  have n4 := get_settings_valid_store_ne env p "logging" store h
  rcases h1 : Netsh.get_settings env p "state" store with ⟨r1, t1⟩
  rw [h1] at n1
  cases r1 with
  | error e => simpa [Netsh.get_all_settings, h1] using n1
  | ok v1 =>
      rcases h2 : Netsh.get_settings env p "firewallpolicy" store with ⟨r2, t2⟩
      rw [h2] at n2
      cases r2 with
      | error e => simpa [Netsh.get_all_settings, h1, h2] using n2
      | ok v2 =>
          rcases h3 : Netsh.get_settings env p "settings" store with ⟨r3, t3⟩
          rw [h3] at n3
          cases r3 with
          | error e => simpa [Netsh.get_all_settings, h1, h2, h3] using n3
          | ok v3 =>
              rcases h4 : Netsh.get_settings env p "logging" store with ⟨r4, t4⟩
              rw [h4] at n4
              cases r4 with
              | error e => simpa [Netsh.get_all_settings, h1, h2, h3, h4] using n4
              | ok v4 => simp [Netsh.get_all_settings, h1, h2, h3, h4]

theorem get_all_profiles_incorrect_store (env : Netsh.NetshEnv) (store : String)
    (h : Netsh.storeValid store = false) :
    Netsh.get_all_profiles env store =
      (.error (.valueError ("Incorrect store: " ++ store)), []) := by
  have h1 := get_all_settings_incorrect_store env "domain" store h (by decide)
  simp [Netsh.get_all_profiles, h1]

theorem get_all_profiles_valid_store_ne (env : Netsh.NetshEnv) (store : String)
    (h : Netsh.storeValid store = true) :
    (Netsh.get_all_profiles env store).1 ≠
      .error (.valueError ("Incorrect store: " ++ store)) := by
  have n1 := get_all_settings_valid_store_ne env "domain" store h
  have n2 := get_all_settings_valid_store_ne env "private" store h
  have n3 := get_all_settings_valid_store_ne env "public" store h
  rcases h1 : Netsh.get_all_settings env "domain" store with ⟨r1, t1⟩
  rw [h1] at n1
  cases r1 with
  | error e => simpa [Netsh.get_all_profiles, h1] using n1
  | ok v1 =>
      rcases h2 : Netsh.get_all_settings env "private" store with ⟨r2, t2⟩
      rw [h2] at n2
      cases r2 with
      | error e => simpa [Netsh.get_all_profiles, h1, h2] using n2
      | ok v2 =>
          rcases h3 : Netsh.get_all_settings env "public" store with ⟨r3, t3⟩
          rw [h3] at n3
          cases r3 with
          | error e => simpa [Netsh.get_all_profiles, h1, h2, h3] using n3
          | ok v3 => simp [Netsh.get_all_profiles, h1, h2, h3]

theorem set_state_invalid_store (env : Netsh.NetshEnv) (p st store : String)
    (h : Netsh.storeValid store = false) :
    ∃ m, Netsh.set_state env p st store = (.error (.valueError m), []) := by
  cases hp : Netsh.profileValid p with
  | false => exact ⟨"Incorrect profile: " ++ p, by simp [Netsh.set_state, hp]⟩
  | true =>
      cases hs : Netsh.stateValid st with
      | false => exact ⟨"Incorrect state: " ++ st, by simp [Netsh.set_state, hp, hs]⟩
      | true =>
          exact ⟨"Incorrect store: " ++ store,
            by simp [Netsh.set_state, hp, hs, runSet_invalid_store env _ store h]⟩

theorem set_state_incorrect_store (env : Netsh.NetshEnv) (p st store : String)
    (h : Netsh.storeValid store = false)
    (hp : Netsh.profileValid p = true) (hs : Netsh.stateValid st = true) :
    Netsh.set_state env p st store =
      (.error (.valueError ("Incorrect store: " ++ store)), []) := by
  simp [Netsh.set_state, hp, hs, runSet_invalid_store env _ store h]

theorem set_state_valid_store_ne (env : Netsh.NetshEnv) (p st store : String)
    (h : Netsh.storeValid store = true) :
    (Netsh.set_state env p st store).1 ≠
      .error (.valueError ("Incorrect store: " ++ store)) := by
  cases hp : Netsh.profileValid p with
  | false =>
      simp only [Netsh.set_state, hp, Bool.not_false, if_true]
      intro hc
      simp only [Except.error.injEq, PyErr.valueError.injEq] at hc
      exact incorrect_profile_ne_store p store hc
  | true =>
      cases hs : Netsh.stateValid st with
      | false =>
          simp only [Netsh.set_state, hp, hs, Bool.not_true, Bool.not_false,
            Bool.false_eq_true, if_false, if_true]
          intro hc
          simp only [Except.error.injEq, PyErr.valueError.injEq] at hc
          exact incorrect_state_ne_store st store hc
      | true =>
          simp only [Netsh.set_state, hp, hs, Bool.not_true, Bool.false_eq_true,
            if_false]
          exact runSet_valid_store_ne env _ store h

theorem set_settings_invalid_store (env : Netsh.NetshEnv) (p setting value store : String)
    (h : Netsh.storeValid store = false) :
    ∃ m, Netsh.set_settings env p setting value store = (.error (.valueError m), []) := by
  cases hp : Netsh.profileValid p with
  | false => exact ⟨"Incorrect profile: " ++ p, by simp [Netsh.set_settings, hp]⟩
  | true =>
      cases hst : Netsh.settingsSettingValid setting with
      | false =>
          exact ⟨"Incorrect setting: " ++ setting, by simp [Netsh.set_settings, hp, hst]⟩
      | true =>
          cases hv : Netsh.enableValueValid value with
          | false =>
              exact ⟨"Incorrect value: " ++ value,
                by simp [Netsh.set_settings, hp, hst, hv]⟩
          | true =>
              exact ⟨"Incorrect store: " ++ store,
                by simp [Netsh.set_settings, hp, hst, hv,
                  runSet_invalid_store env _ store h]⟩

theorem set_settings_incorrect_store (env : Netsh.NetshEnv) (p setting value store : String)
    (h : Netsh.storeValid store = false) (hp : Netsh.profileValid p = true)
    (hst : Netsh.settingsSettingValid setting = true)
    (hv : Netsh.enableValueValid value = true) :
    Netsh.set_settings env p setting value store =
      (.error (.valueError ("Incorrect store: " ++ store)), []) := by
  simp [Netsh.set_settings, hp, hst, hv, runSet_invalid_store env _ store h]

theorem set_settings_valid_store_ne (env : Netsh.NetshEnv) (p setting value store : String)
    (h : Netsh.storeValid store = true) :
    (Netsh.set_settings env p setting value store).1 ≠
      .error (.valueError ("Incorrect store: " ++ store)) := by
  cases hp : Netsh.profileValid p with
  | false =>
      simp only [Netsh.set_settings, hp, Bool.not_false, if_true]
      intro hc
      simp only [Except.error.injEq, PyErr.valueError.injEq] at hc
      exact incorrect_profile_ne_store p store hc
  | true =>
      cases hst : Netsh.settingsSettingValid setting with
      | false =>
          simp only [Netsh.set_settings, hp, hst, Bool.not_true, Bool.not_false,
            Bool.false_eq_true, if_false, if_true]
          intro hc
          simp only [Except.error.injEq, PyErr.valueError.injEq] at hc
          exact incorrect_setting_ne_store setting store hc
      | true =>
          cases hv : Netsh.enableValueValid value with
          | false =>
              simp only [Netsh.set_settings, hp, hst, hv, Bool.not_true,
                Bool.not_false, Bool.false_eq_true, if_false, if_true]
              intro hc
              simp only [Except.error.injEq, PyErr.valueError.injEq] at hc
              exact incorrect_value_ne_store value store hc
          | true =>
              simp only [Netsh.set_settings, hp, hst, hv, Bool.not_true,
                Bool.false_eq_true, if_false]
              exact runSet_valid_store_ne env _ store h

theorem maxfilesizeCheck_some (setting value : String) (e : PyErr)
    (h : Netsh.maxfilesizeCheck setting value = some e) :
    e = .valueError ("Incorrect value: " ++ value) := by
  unfold Netsh.maxfilesizeCheck at h
  by_cases hc : pyLower setting = "maxfilesize" ∧ pyLower value ≠ "notconfigured"
  · rw [if_pos hc] at h
    cases hpi : Netsh.pyInt value with
    | none => rw [hpi] at h; exact (Option.some.injEq _ _ ▸ h).symm
    | some n =>
        rw [hpi] at h
        replace h : (if 1 ≤ n ∧ n ≤ 32767 then none
            else some (PyErr.valueError ("Incorrect value: " ++ value))) = some e := h
        by_cases hr : 1 ≤ n ∧ n ≤ 32767
        · rw [if_pos hr] at h; exact absurd h (by simp)
        · rw [if_neg hr] at h; exact (Option.some.injEq _ _ ▸ h).symm
  · rw [if_neg hc] at h; exact absurd h (by simp)

theorem set_logging_settings_invalid_store (env : Netsh.NetshEnv)
    (p setting value store : String) (h : Netsh.storeValid store = false) :
    ∃ m, Netsh.set_logging_settings env p setting value store =
      (.error (.valueError m), []) := by
  cases hp : Netsh.profileValid p with
  | false => exact ⟨"Incorrect profile: " ++ p, by simp [Netsh.set_logging_settings, hp]⟩
  | true =>
      cases hls : Netsh.loggingSettingValid setting with
      | false =>
          exact ⟨"Incorrect setting: " ++ setting,
            by simp [Netsh.set_logging_settings, hp, hls]⟩
      | true =>
          by_cases hvc : (pyLower setting = "allowedconnections" ∨
              pyLower setting = "droppedconnections") ∧
              Netsh.enableValueValid value = false
          · exact ⟨"Incorrect value: " ++ value,
              by simp [Netsh.set_logging_settings, hp, hls, hvc]⟩
          · cases hmx : Netsh.maxfilesizeCheck setting value with
            | some e =>
                refine ⟨"Incorrect value: " ++ value, ?_⟩
                have he := maxfilesizeCheck_some setting value e hmx
                subst he
                simp [Netsh.set_logging_settings, hp, hls, hvc, hmx]
            | none =>
                exact ⟨"Incorrect store: " ++ store,
                  by simp [Netsh.set_logging_settings, hp, hls, hvc, hmx,
                    runSet_invalid_store env _ store h]⟩

theorem set_logging_settings_incorrect_store (env : Netsh.NetshEnv)
    (p setting value store : String) (h : Netsh.storeValid store = false)
    (hp : Netsh.profileValid p = true)
    (hls : Netsh.loggingSettingValid setting = true)
    (hvc : ¬((pyLower setting = "allowedconnections" ∨
        pyLower setting = "droppedconnections") ∧
        Netsh.enableValueValid value = false))
    (hmx : Netsh.maxfilesizeCheck setting value = none) :
    Netsh.set_logging_settings env p setting value store =
      (.error (.valueError ("Incorrect store: " ++ store)), []) := by
  simp [Netsh.set_logging_settings, hp, hls, hvc, hmx,
    runSet_invalid_store env _ store h]

theorem set_logging_settings_valid_store_ne (env : Netsh.NetshEnv)
    (p setting value store : String) (h : Netsh.storeValid store = true) :
    (Netsh.set_logging_settings env p setting value store).1 ≠
      .error (.valueError ("Incorrect store: " ++ store)) := by
  cases hp : Netsh.profileValid p with
  | false =>
      simp only [Netsh.set_logging_settings, hp, Bool.not_false, if_true]
      intro hc
      simp only [Except.error.injEq, PyErr.valueError.injEq] at hc
      exact incorrect_profile_ne_store p store hc
  | true =>
      cases hls : Netsh.loggingSettingValid setting with
      | false =>
          simp only [Netsh.set_logging_settings, hp, hls, Bool.not_true,
            Bool.not_false, Bool.false_eq_true, if_false, if_true]
          intro hc
          simp only [Except.error.injEq, PyErr.valueError.injEq] at hc
          exact incorrect_setting_ne_store setting store hc
      | true =>
          by_cases hvc : (pyLower setting = "allowedconnections" ∨
              pyLower setting = "droppedconnections") ∧
              Netsh.enableValueValid value = false
          · have key : Netsh.set_logging_settings env p setting value store =
                (.error (.valueError ("Incorrect value: " ++ value)), []) := by
              simp [Netsh.set_logging_settings, hp, hls, hvc]
            rw [key]
            intro hc
            simp only [Except.error.injEq, PyErr.valueError.injEq] at hc
            exact incorrect_value_ne_store value store hc
          · cases hmx : Netsh.maxfilesizeCheck setting value with
            | some e =>
                have he := maxfilesizeCheck_some setting value e hmx
                subst he
                simp only [Netsh.set_logging_settings, hp, hls, hvc, hmx,
                  Bool.not_true, Bool.false_eq_true, if_false, if_true]
                intro hc
                simp only [Except.error.injEq, PyErr.valueError.injEq] at hc
                exact incorrect_value_ne_store value store hc
            | none =>
                simp only [Netsh.set_logging_settings, hp, hls, hvc, hmx,
                  Bool.not_true, Bool.false_eq_true, if_false, if_true]
                exact runSet_valid_store_ne env _ store h

theorem dictGet_error_is_keyError {α : Type} (d : List (String × α)) (k : String)
    (e : PyErr) (h : Netsh.dictGet d k = .error e) : e = .keyError k := by
  unfold Netsh.dictGet at h
  cases hl : alookup d k with
  | none => rw [hl] at h; simpa using h.symm
  | some v => rw [hl] at h; exact absurd h (by simp)

theorem set_firewall_settings_invalid_store (env : Netsh.NetshEnv) (p : String)
    (inb outb : Option String) (store : String)
    (h : Netsh.storeValid store = false) :
    ∃ m, Netsh.set_firewall_settings env p inb outb store =
      (.error (.valueError m), []) := by
  cases hp : Netsh.profileValid p with
  | false =>
      exact ⟨"Incorrect profile: " ++ p, by simp [Netsh.set_firewall_settings, hp]⟩
  | true =>
      cases hib : truthyStr inb && !Netsh.inboundValid (inb.getD "") with
      | true =>
          exact ⟨"Incorrect inbound value: " ++ inb.getD "",
            by simp [Netsh.set_firewall_settings, hp, hib]⟩
      | false =>
          cases hob : truthyStr outb && !Netsh.outboundValid (outb.getD "") with
          | true =>
              exact ⟨"Incorrect outbound value: " ++ outb.getD "",
                by simp [Netsh.set_firewall_settings, hp, hib, hob]⟩
          | false =>
              cases hms : !truthyStr inb && !truthyStr outb with
              | true =>
                  exact ⟨"Must set inbound or outbound",
                    by simp [Netsh.set_firewall_settings, hp, hib, hob, hms]⟩
              | false =>
                  cases hfo : !truthyStr inb || !truthyStr outb with
                  | true =>
                      obtain ⟨m, hm⟩ :=
                        get_settings_invalid_store env p "firewallpolicy" store h
                      exact ⟨m, by
                        simp [Netsh.set_firewall_settings, hp, hib, hob, hms, hfo, hm]⟩
                  | false =>
                      exact ⟨"Incorrect store: " ++ store, by
                        simp [Netsh.set_firewall_settings, hp, hib, hob, hms, hfo,
                          runSet_invalid_store env _ store h]⟩

theorem set_firewall_settings_incorrect_store (env : Netsh.NetshEnv) (p : String)
    (inb outb : Option String) (store : String)
    (h : Netsh.storeValid store = false)
    (hp : Netsh.profileValid p = true)
    (hib : (truthyStr inb && !Netsh.inboundValid (inb.getD "")) = false)
    (hob : (truthyStr outb && !Netsh.outboundValid (outb.getD "")) = false)
    (hms : (!truthyStr inb && !truthyStr outb) = false) :
    Netsh.set_firewall_settings env p inb outb store =
      (.error (.valueError ("Incorrect store: " ++ store)), []) := by
  cases hfo : !truthyStr inb || !truthyStr outb with
  | true =>
      have hg := get_settings_incorrect_store env p "firewallpolicy" store h hp
        (by decide)
      simp [Netsh.set_firewall_settings, hp, hib, hob, hms, hfo, hg]
  | false =>
      simp [Netsh.set_firewall_settings, hp, hib, hob, hms, hfo,
        runSet_invalid_store env _ store h]

theorem set_firewall_settings_valid_store_ne (env : Netsh.NetshEnv) (p : String)
    (inb outb : Option String) (store : String)
    (h : Netsh.storeValid store = true) :
    (Netsh.set_firewall_settings env p inb outb store).1 ≠
      .error (.valueError ("Incorrect store: " ++ store)) := by
  cases hp : Netsh.profileValid p with
  | false =>
      have key : Netsh.set_firewall_settings env p inb outb store =
          (.error (.valueError ("Incorrect profile: " ++ p)), []) := by
        simp [Netsh.set_firewall_settings, hp]
      rw [key]
      intro hc
      simp only [Except.error.injEq, PyErr.valueError.injEq] at hc
      exact incorrect_profile_ne_store p store hc
  | true =>
      cases hib : truthyStr inb && !Netsh.inboundValid (inb.getD "") with
      | true =>
          have key : Netsh.set_firewall_settings env p inb outb store =
              (.error (.valueError ("Incorrect inbound value: " ++ inb.getD "")), []) := by
            simp [Netsh.set_firewall_settings, hp, hib]
          rw [key]
          intro hc
          simp only [Except.error.injEq, PyErr.valueError.injEq] at hc
          exact incorrect_inbound_ne_store (inb.getD "") store hc
      | false =>
          cases hob : truthyStr outb && !Netsh.outboundValid (outb.getD "") with
          | true =>
              have key : Netsh.set_firewall_settings env p inb outb store =
                  (.error (.valueError
                    ("Incorrect outbound value: " ++ outb.getD "")), []) := by
                simp [Netsh.set_firewall_settings, hp, hib, hob]
              rw [key]
              intro hc
              simp only [Except.error.injEq, PyErr.valueError.injEq] at hc
              exact incorrect_outbound_ne_store (outb.getD "") store hc
          | false =>
              cases hms : !truthyStr inb && !truthyStr outb with
              | true =>
                  have key : Netsh.set_firewall_settings env p inb outb store =
                      (.error (.valueError "Must set inbound or outbound"), []) := by
                    simp [Netsh.set_firewall_settings, hp, hib, hob, hms]
                  rw [key]
                  intro hc
                  simp only [Except.error.injEq, PyErr.valueError.injEq] at hc
                  exact must_set_ne_store store hc
              | false =>
                  cases hfo : !truthyStr inb || !truthyStr outb with
                  | false =>
                      have key : (Netsh.set_firewall_settings env p inb outb store).1 =
                          (Netsh.runSet env ("set " ++ p ++ "profile firewallpolicy " ++
                            inb.getD "" ++ "," ++ outb.getD "") store).1 := by
                        simp [Netsh.set_firewall_settings, hp, hib, hob, hms, hfo]
                      rw [key]
                      exact runSet_valid_store_ne env _ store h
                  | true =>
                      rcases hg : Netsh.get_settings env p "firewallpolicy" store
                        with ⟨r, t⟩
                      have hne := get_settings_valid_store_ne env p "firewallpolicy"
                        store h
                      rw [hg] at hne
                      cases r with
                      | error e =>
                          have key : (Netsh.set_firewall_settings env p inb outb
                              store).1 = .error e := by
                            simp [Netsh.set_firewall_settings, hp, hib, hob, hms,
                              hfo, hg]
                          rw [key]
                          simpa using hne
                      | ok ret =>
                          cases hinb : (if truthyStr inb then
                              Except.ok (ε := PyErr) (inb.getD "")
                              else Netsh.dictGet ret "Inbound") with
                          | error e =>
                              have he : e = .keyError "Inbound" := by
                                by_cases hti : truthyStr inb
                                · rw [if_pos hti] at hinb; exact absurd hinb (by simp)
                                · rw [if_neg hti] at hinb
                                  exact dictGet_error_is_keyError ret "Inbound" e hinb
                              have key : (Netsh.set_firewall_settings env p inb outb
                                  store).1 = .error e := by
                                simp [Netsh.set_firewall_settings, hp, hib, hob, hms,
                                  hfo, hg, hinb]
                              rw [key, he]
                              simp
                          | ok i =>
                              cases houtb : (if truthyStr outb then
                                  Except.ok (ε := PyErr) (outb.getD "")
                                  else Netsh.dictGet ret "Outbound") with
                              | error e =>
                                  have he : e = .keyError "Outbound" := by
                                    by_cases hto : truthyStr outb
                                    · rw [if_pos hto] at houtb
                                      exact absurd houtb (by simp)
                                    · rw [if_neg hto] at houtb
                                      exact dictGet_error_is_keyError ret "Outbound"
                                        e houtb
                                  have key : (Netsh.set_firewall_settings env p inb
                                      outb store).1 = .error e := by
                                    simp [Netsh.set_firewall_settings, hp, hib, hob,
                                      hms, hfo, hg, hinb, houtb]
                                  rw [key, he]
                                  simp
                              | ok o =>
                                  have key : (Netsh.set_firewall_settings env p inb
                                      outb store).1 =
                                      (Netsh.runSet env ("set " ++ p ++
                                        "profile firewallpolicy " ++ i ++ "," ++ o)
                                        store).1 := by
                                    simp [Netsh.set_firewall_settings, hp, hib, hob,
                                      hms, hfo, hg, hinb, houtb]
                                  rw [key]
                                  exact runSet_valid_store_ne env _ store h

/-- C10 counterexample: with the invalid store "bad" but an invalid
profile as well, `get_settings` raises `ValueError` with the profile
message, not the store message, so the claim's unconditional
"raises ValueError with message Incorrect store" is false. -/
theorem netsh_store_claim_counterexample :
    Netsh.storeValid "bad" = false ∧
    Netsh.get_settings Netsh.sampleEnv "bogus" "state" "bad" =
      (.error (.valueError "Incorrect profile: bogus"), []) ∧
    "Incorrect profile: bogus" ≠ "Incorrect store: " ++ "bad" := by
  refine ⟨by decide, ?_, by decide⟩
  have hp : Netsh.profileValid "bogus" = false := by decide
  simp [Netsh.get_settings, hp]

/-- C10 (amended): for every netsh operation taking a store argument,
an invalid store makes the operation raise a `ValueError` before any
netsh command is executed (empty execution trace); the error message
is exactly `Incorrect store: <store>` provided the operation's earlier
argument validations pass; and for an accepted store no
Incorrect-store error is ever raised. -/
theorem netsh_store_validation (env : Netsh.NetshEnv)
    (p sect setting value st : String) (inb outb : Option String)
    (store : String) :
    (Netsh.storeValid store = false →
      (∃ m, Netsh.get_settings env p sect store = (.error (.valueError m), [])) ∧
      (∃ m, Netsh.get_all_settings env p store = (.error (.valueError m), [])) ∧
      Netsh.get_all_profiles env store =
        (.error (.valueError ("Incorrect store: " ++ store)), []) ∧
      (∃ m, Netsh.set_firewall_settings env p inb outb store =
        (.error (.valueError m), [])) ∧
      (∃ m, Netsh.set_logging_settings env p setting value store =
        (.error (.valueError m), [])) ∧
      (∃ m, Netsh.set_settings env p setting value store =
        (.error (.valueError m), [])) ∧
      (∃ m, Netsh.set_state env p st store = (.error (.valueError m), []))) ∧
    (Netsh.storeValid store = false →
      (Netsh.profileValid p = true → Netsh.sectionValid sect = true →
        Netsh.get_settings env p sect store =
          (.error (.valueError ("Incorrect store: " ++ store)), [])) ∧
      (Netsh.profileValid p = true →
        Netsh.get_all_settings env p store =
          (.error (.valueError ("Incorrect store: " ++ store)), [])) ∧
      (Netsh.profileValid p = true →
        (truthyStr inb && !Netsh.inboundValid (inb.getD "")) = false →
        (truthyStr outb && !Netsh.outboundValid (outb.getD "")) = false →
        (!truthyStr inb && !truthyStr outb) = false →
        Netsh.set_firewall_settings env p inb outb store =
          (.error (.valueError ("Incorrect store: " ++ store)), [])) ∧
      (Netsh.profileValid p = true → Netsh.loggingSettingValid setting = true →
        ¬((pyLower setting = "allowedconnections" ∨
            pyLower setting = "droppedconnections") ∧
          Netsh.enableValueValid value = false) →
        Netsh.maxfilesizeCheck setting value = none →
        Netsh.set_logging_settings env p setting value store =
          (.error (.valueError ("Incorrect store: " ++ store)), [])) ∧
      (Netsh.profileValid p = true → Netsh.settingsSettingValid setting = true →
        Netsh.enableValueValid value = true →
        Netsh.set_settings env p setting value store =
          (.error (.valueError ("Incorrect store: " ++ store)), [])) ∧
      (Netsh.profileValid p = true → Netsh.stateValid st = true →
        Netsh.set_state env p st store =
          (.error (.valueError ("Incorrect store: " ++ store)), []))) ∧
    (Netsh.storeValid store = true →
      (Netsh.get_settings env p sect store).1 ≠
        .error (.valueError ("Incorrect store: " ++ store)) ∧
      (Netsh.get_all_settings env p store).1 ≠
        .error (.valueError ("Incorrect store: " ++ store)) ∧
      (Netsh.get_all_profiles env store).1 ≠
        .error (.valueError ("Incorrect store: " ++ store)) ∧
      (Netsh.set_firewall_settings env p inb outb store).1 ≠
        .error (.valueError ("Incorrect store: " ++ store)) ∧
      (Netsh.set_logging_settings env p setting value store).1 ≠
        .error (.valueError ("Incorrect store: " ++ store)) ∧
      (Netsh.set_settings env p setting value store).1 ≠
        .error (.valueError ("Incorrect store: " ++ store)) ∧
      (Netsh.set_state env p st store).1 ≠
        .error (.valueError ("Incorrect store: " ++ store))) := by
  refine ⟨fun h => ?_, fun h => ?_, fun h => ?_⟩
  · refine ⟨get_settings_invalid_store env p sect store h,
      get_all_settings_invalid_store env p store h,
      get_all_profiles_incorrect_store env store h,
      set_firewall_settings_invalid_store env p inb outb store h,
      set_logging_settings_invalid_store env p setting value store h,
      set_settings_invalid_store env p setting value store h,
      set_state_invalid_store env p st store h⟩
  · exact ⟨fun hp hs => get_settings_incorrect_store env p sect store h hp hs,
      fun hp => get_all_settings_incorrect_store env p store h hp,
      fun hp hib hob hms =>
        set_firewall_settings_incorrect_store env p inb outb store h hp hib hob hms,
      fun hp hls hvc hmx =>
        set_logging_settings_incorrect_store env p setting value store h hp hls hvc hmx,
      fun hp hst hv => set_settings_incorrect_store env p setting value store h hp hst hv,
      fun hp hs => set_state_incorrect_store env p st store h hp hs⟩
  · exact ⟨get_settings_valid_store_ne env p sect store h,
      get_all_settings_valid_store_ne env p store h,
      get_all_profiles_valid_store_ne env store h,
      set_firewall_settings_valid_store_ne env p inb outb store h,
      set_logging_settings_valid_store_ne env p setting value store h,
      set_settings_valid_store_ne env p setting value store h,
      set_state_valid_store_ne env p st store h⟩

/-- Witness for C10 at concrete arguments: the invalid store "bad"
yields the Incorrect-store ValueError with an empty trace across the
operations once their earlier validations pass, and the accepted store
"local" never yields that error. -/
theorem netsh_store_validation_witness :
    Netsh.get_settings Netsh.sampleEnv "domain" "state" "bad" =
      (.error (.valueError ("Incorrect store: " ++ "bad")), []) ∧
    Netsh.get_all_settings Netsh.sampleEnv "domain" "bad" =
      (.error (.valueError ("Incorrect store: " ++ "bad")), []) ∧
    Netsh.set_firewall_settings Netsh.sampleEnv "domain" (some "blockinbound")
      (some "allowoutbound") "bad" =
      (.error (.valueError ("Incorrect store: " ++ "bad")), []) ∧
    Netsh.set_logging_settings Netsh.sampleEnv "domain" "maxfilesize" "100" "bad" =
      (.error (.valueError ("Incorrect store: " ++ "bad")), []) ∧
    Netsh.set_settings Netsh.sampleEnv "domain" "remotemanagement" "enable" "bad" =
      (.error (.valueError ("Incorrect store: " ++ "bad")), []) ∧
    Netsh.set_state Netsh.sampleEnv "domain" "on" "bad" =
      (.error (.valueError ("Incorrect store: " ++ "bad")), []) ∧
    (Netsh.get_settings Netsh.sampleEnv "domain" "state" "local").1 ≠
      .error (.valueError ("Incorrect store: " ++ "local")) ∧
    (Netsh.set_state Netsh.sampleEnv "domain" "on" "local").1 ≠
      .error (.valueError ("Incorrect store: " ++ "local")) := by
  obtain ⟨-, hB, -⟩ := netsh_store_validation Netsh.sampleEnv "domain" "state"
    "maxfilesize" "100" "on" (some "blockinbound") (some "allowoutbound") "bad"
  obtain ⟨hB1, hB2, hB3, hB4, -, hB6⟩ := hB (by decide)
  obtain ⟨-, -, hC⟩ := netsh_store_validation Netsh.sampleEnv "domain" "state"
    "maxfilesize" "100" "on" (some "blockinbound") (some "allowoutbound") "local"
  obtain ⟨hC1, -, -, -, -, -, hC7⟩ := hC (by decide)
  obtain ⟨-, hB', -⟩ := netsh_store_validation Netsh.sampleEnv "domain" "state"
    "remotemanagement" "enable" "on" (some "blockinbound") (some "allowoutbound")
    "bad"
  obtain ⟨-, -, -, -, hB5', -⟩ := hB' (by decide)
  exact ⟨hB1 (by decide) (by decide), hB2 (by decide),
    hB3 (by decide) (by decide) (by decide) (by decide),
    hB4 (by decide) (by decide) (by decide) (by decide),
    hB5' (by decide) (by decide) (by decide),
    hB6 (by decide) (by decide), hC1, hC7⟩
